import Mathlib

set_option maxRecDepth 100000

/-!
Shallow embedding of the POSIX named-semaphore layer of
`src/kernel/posix/semaphore.c` (Zephyr POSIX compatibility layer).

The registry is a fixed array `sem_named` of 32 slots (`struct _nsem`)
plus a counter `sem_named_n`.  Handles returned by `sem_open` are the
addresses `&slot->sem`; since slot addresses are distinct and stable we
model a handle as the slot's index in the table.  The `u32_t refs`
field is modelled as a `Nat` reduced modulo `2^32` at the only place the
C code changes it (the `--nsem->refs` inside `dereference_nsem`).
`errno` codes are an enumeration; an operation returns the (possibly
updated) global state paired with an `Except` result, errors carrying
the `errno` value the C code sets before `goto error`.
-/

/-- The `errno` codes set by `semaphore.c`.  `NULL_DEREF` is not an errno:
it marks the state in `sem_open` where `alloc_nsem` returned `NULL` and the
C code would dereference a null pointer (`sem_init(&nsem->sem, ...)`);
this is unreachable while `sem_named_n` bounds the number of live slots. -/
inductive Errno where
  | EBUSY
  | EAGAIN
  | EINVAL
  | ETIMEDOUT
  | ENFILE
  | EEXIST
  | ENOENT
  | NULL_DEREF
  deriving DecidableEq, Repr

/-- Results of the embedded operations are compared with `decide` in the
concrete scenarios, so `Except` needs decidable equality. -/
instance exceptDecEq {ε α : Type} [DecidableEq ε] [DecidableEq α] :
    DecidableEq (Except ε α) := fun x y =>
  match x, y with
  | .ok a, .ok b =>
    if h : a = b then isTrue (by rw [h]) else
      isFalse (by intro hc; cases hc; exact h rfl)
  | .ok _, .error _ => isFalse (by intro hc; cases hc)
  | .error _, .ok _ => isFalse (by intro hc; cases hc)
  | .error e, .error f =>
    if h : e = f then isTrue (by rw [h]) else
      isFalse (by intro hc; cases hc; exact h rfl)

/-- `struct _nsem`: one slot of the named-semaphore table.  `count` is the
counter of the embedded `sem_t sem` (set by `sem_init` at creation);
`name`, `refs`, `to_free`, `in_use` are the bookkeeping fields of the
C struct.  A zero-initialised slot has `name = ""` (the C array is static,
so `name` starts as a null pointer; no claim depends on its contents while
`in_use` is false). -/
structure NSem where
  count : Nat
  name : String
  refs : Nat
  to_free : Bool
  in_use : Bool
  deriving DecidableEq, Repr

/-- `2^32`, the modulus of the `u32_t refs` field. -/
def U32_MOD : Nat := 4294967296

/-- `SEM_NAMED_N_LIMIT`, the capacity of the table. -/
def SEM_NAMED_N_LIMIT : Nat := 32

/-- A slot of the zero-initialised static array. -/
def initSlot : NSem := { count := 0, name := "", refs := 0, to_free := false, in_use := false }

/-- The mutable global state of `semaphore.c`: the slot array `sem_named`
and the used-slot counter `sem_named_n`. -/
structure SemState where
  sem_named : List NSem
  sem_named_n : Nat
  deriving DecidableEq, Repr

/-- The state at program start: 32 zero-initialised slots, counter 0. -/
def initState : SemState :=
  { sem_named := List.replicate SEM_NAMED_N_LIMIT initSlot, sem_named_n := 0 }

/-- The scan pattern shared by `find_by_name_nsem` and `find_by_addr_nsem`:
walk the table from index `i`, returning the first slot (with its index)
satisfying `p`, like the C `while (it != lmt && !semp)` loops. -/
def scanFrom (p : Nat → NSem → Bool) (i : Nat) : List NSem → Option (Nat × NSem)
  | [] => none
  | s :: rest => if p i s then some (i, s) else scanFrom p (i + 1) rest

/-- `find_by_name_nsem`: first slot whose name matches and which is in use
(the C code compares with `strncmp(name, it->name, PATH_MAX)`; all names in
scope are shorter than `PATH_MAX`, so this is string equality). -/
def find_by_name_nsem (tbl : List NSem) (name : String) : Option (Nat × NSem) :=
  scanFrom (fun _ s => s.name == name && s.in_use) 0 tbl

/-- `find_by_addr_nsem`: the C code compares `&it->sem == sem`; slot
addresses are distinct, so a handle identifies the slot index it was
created from, and the scan looks for that index among in-use slots. -/
def find_by_addr_nsem (tbl : List NSem) (h : Nat) : Option (Nat × NSem) :=
  scanFrom (fun i s => i == h && s.in_use) 0 tbl

/-- `dereference_nsem` on the refs field: `--nsem->refs` on a `u32_t`,
returning the decremented value (wraps at 0). -/
def dereference_nsem (refs : Nat) : Nat :=
  (refs + (U32_MOD - 1)) % U32_MOD

/-- `alloc_nsem`: claim the first free slot, setting
`in_use := true, to_free := false, name, refs := 1`.  Returns the updated
table and the index of the claimed slot, or `none` if every slot is in use
(the C function returns `NULL`). -/
def alloc_nsem (name : String) : List NSem → Option (List NSem × Nat)
  | [] => none
  | s :: rest =>
    if !s.in_use then
      some ({ s with in_use := true, to_free := false, name := name, refs := 1 } :: rest, 0)
    else
      (alloc_nsem name rest).map (fun r => (s :: r.1, r.2 + 1))

/-- `free_nsem`: clear `in_use`.  (`sem_destroy(&nsem->sem)` is also called;
its only effect is a return value that `free_nsem` ignores, so the slot's
other fields are untouched.) -/
def free_nsem (s : NSem) : NSem :=
  { s with in_use := false }

/-- `sem_init` on the embedded semaphore: `k_sem_init(sem, value, SEM_VALUE_MAX)`
sets the counter to `value`. -/
def NSem.setCount (s : NSem) (value : Nat) : NSem :=
  { s with count := value }

/-- Update the slot at index `i` of a table in place. -/
def tblModify (l : List NSem) (i : Nat) (f : NSem → NSem) : List NSem :=
  match l[i]? with
  | some a => l.set i (f a)
  | none => l

/-- `sem_open(name, oflag, mode, value)`.  Result: the new global state and
either the handle (slot index) or the `errno` the C code sets.  Mirrors the
source: capacity check on `sem_named_n` first, then lookup by name; on a
hit, `O_EXCL` fails with `EEXIST` and otherwise the existing handle is
returned with no field updated; on a miss, no `O_CREAT` fails with
`ENOENT`, otherwise a slot is allocated, its embedded semaphore initialised
to `value` by `sem_init`, and `sem_named_n` incremented. -/
def sem_open (st : SemState) (name : String) (o_creat o_excl : Bool) (value : Nat) :
    SemState × Except Errno Nat :=
  if st.sem_named_n = SEM_NAMED_N_LIMIT then
    (st, .error .ENFILE)
  else
    match find_by_name_nsem st.sem_named name with
    | some is =>
      if o_excl then (st, .error .EEXIST) else (st, .ok is.1)
    | none =>
      if !o_creat then
        (st, .error .ENOENT)
      else
        match alloc_nsem name st.sem_named with
        | some ti =>
          ({ sem_named := tblModify ti.1 ti.2 (fun s => s.setCount value),
             sem_named_n := st.sem_named_n + 1 }, .ok ti.2)
        | none => (st, .error .NULL_DEREF)

/-- `sem_close(sem)`: look the handle up; unknown handles fail with
`EINVAL`.  Otherwise decrement `refs` (`dereference_nsem`) and, if the
decremented value is 0 and `to_free` is set, tear the slot down
(`free_nsem`). -/
def sem_close (st : SemState) (h : Nat) : SemState × Except Errno Unit :=
  match find_by_addr_nsem st.sem_named h with
  | none => (st, .error .EINVAL)
  | some is =>
    let s1 := { is.2 with refs := dereference_nsem is.2.refs }
    let s2 := if s1.refs = 0 then (if s1.to_free then free_nsem s1 else s1) else s1
    ({ st with sem_named := st.sem_named.set is.1 s2 }, .ok ())

/-- `sem_unlink(name)`: look the name up; unknown names fail with `ENOENT`.
Otherwise set `to_free`, decrement `refs` (`dereference_nsem`) and, if the
decremented value is 0, tear the slot down (`free_nsem`). -/
def sem_unlink (st : SemState) (name : String) : SemState × Except Errno Unit :=
  match find_by_name_nsem st.sem_named name with
  | none => (st, .error .ENOENT)
  | some is =>
    let s1 := { is.2 with to_free := true, refs := dereference_nsem is.2.refs }
    let s2 := if s1.refs = 0 then free_nsem s1 else s1
    ({ st with sem_named := st.sem_named.set is.1 s2 }, .ok ())

/-- `2^32` as an integer, for the `(s32_t)` cast. -/
def S32_MOD : Int := 4294967296

/-- The `(s32_t)` cast applied to `wakeup - now` before it is handed to
`k_sem_take`: reduce to the signed 32-bit range `[-2^31, 2^31)`. -/
def toS32 (x : Int) : Int :=
  (x + 2147483648) % S32_MOD - 2147483648

/-- The deadline translation inside `sem_timedwait`, everything up to the
`k_sem_take` call.  `.error .EINVAL` means the function returned before
touching the primitive; `.ok t` means `k_sem_take(sem, t)` is invoked with
relative timeout `t` ms.  `now_ms` stands for
`__ticks_to_ms(k_cycle_get_32())`.  The validation is the source's
`tv_nsec < 0 || tv_nsec > 1000000000`; the division truncates
(operands are non-negative past the check, so `Int` division agrees with C). -/
def sem_timedwait_timeout (tv_sec tv_nsec now_ms : Int) : Except Errno Int :=
  if tv_nsec < 0 ∨ tv_nsec > 1000000000 then
    .error .EINVAL
  else
    .ok (toS32 (tv_sec * 1000 + tv_nsec / 1000000 - now_ms))

/-! ### Concrete states used by the claim scenarios -/

/-- State after `sem_open("s", O_CREAT, 0, 1)` from the initial state:
slot 0 is live with name `"s"`, `refs = 1`. -/
def stS : SemState := (sem_open initState "s" true false 1).1

/-- State after additionally closing the single handle to `"s"`:
slot 0 is live with `refs = 0`, `to_free = false`. -/
def stZero : SemState := (sem_close stS 0).1

/-- The 32 distinct names of the capacity scenario. -/
def names32 : List String :=
  ["a0", "a1", "a2", "a3", "a4", "a5", "a6", "a7",
   "a8", "a9", "a10", "a11", "a12", "a13", "a14", "a15",
   "a16", "a17", "a18", "a19", "a20", "a21", "a22", "a23",
   "a24", "a25", "a26", "a27", "a28", "a29", "a30", "a31"]

/-- State after creating all 32 names: every slot live, `sem_named_n = 32`. -/
def fullTable : SemState :=
  names32.foldl (fun st n => (sem_open st n true false 0).1) initState

/-- `fullTable` after `sem_unlink("a0")` followed by `sem_close` of the
(now stale) handle to `"a0"`: slot 0 has been torn down, but
`sem_named_n` is still 32. -/
def c3_after : SemState := (sem_close ((sem_unlink fullTable "a0").1) 0).1

/-! ### Scan lemmas -/

/-- A successful scan returns a slot satisfying the predicate, at an index
at least the starting index, and the slot really is the table entry there. -/
theorem scanFrom_eq_some (p : Nat → NSem → Bool) :
    ∀ (l : List NSem) (j k : Nat) (t : NSem), scanFrom p j l = some (k, t) →
      p k t = true ∧ j ≤ k ∧ l[k - j]? = some t := by
  intro l
  induction l with
  | nil => intro j k t h; simp [scanFrom] at h
  | cons s rest ih =>
    intro j k t h
    by_cases hp : p j s = true
    · simp [scanFrom, hp] at h
      obtain ⟨hk, ht⟩ := h
      subst hk; subst ht
      exact ⟨hp, Nat.le_refl j, by simp⟩
    · simp only [scanFrom, hp, if_false, Bool.false_eq_true] at h
      obtain ⟨h1, h2, h3⟩ := ih (j + 1) k t h
      refine ⟨h1, by omega, ?_⟩
      have hkj : k - j = (k - (j + 1)) + 1 := by omega
      rw [hkj]
      simpa using h3

/-! ### Claims C1 - C3: reference counting, unlink, capacity reuse -/

/-- Claim C1.  The spec says a successful `sem_open` of an existing live
name increments the slot's reference count, so that N opens and M closes
leave `refs = N - M`.  The code does not: the attach branch of `sem_open`
returns the handle without touching any field.  Evaluated at the failing
input (create `"s"`, then open `"s"` again): the second open succeeds and
returns slot 0's handle, yet the whole state — in particular `refs = 1` —
is unchanged, where the claim requires `refs = 2`. -/
theorem C1_open_existing_does_not_increment_refs :
    (sem_open stS "s" false false 0).2 = .ok 0 ∧
    (sem_open stS "s" false false 0).1 = stS ∧
    stS.sem_named[0]?.map NSem.refs = some 1 := by decide

/-- Claim C2.  The spec says `sem_unlink` on a live name only sets
`to_free`, tearing the slot down immediately only when `refs` is already
zero.  The code instead decrements `refs` inside `sem_unlink` and frees
when the decremented value hits 0.  Evaluated at the failing inputs:
(a) unlinking `"s"` while its one handle is still open (`refs = 1`)
tears the slot down at once (`in_use` cleared, name lookup fails), and
(b) unlinking `"s"` when `refs` is already 0 does **not** tear it down —
the decrement wraps `refs` to `2^32 - 1` and the slot stays live. -/
theorem C2_unlink_with_refs_tears_down_immediately :
    (sem_unlink stS "s").2 = .ok () ∧
    stS.sem_named[0]?.map NSem.refs = some 1 ∧
    (sem_unlink stS "s").1.sem_named[0]?.map NSem.in_use = some false ∧
    find_by_name_nsem (sem_unlink stS "s").1.sem_named "s" = none ∧
    stZero.sem_named[0]?.map NSem.refs = some 0 ∧
    (sem_unlink stZero "s").1.sem_named[0]?.map NSem.in_use = some true ∧
    (sem_unlink stZero "s").1.sem_named[0]?.map NSem.refs = some 4294967295 := by decide

/-- Claim C3.  The spec scenario: after 32 distinct creations `"a32"` fails
with CapacityExceeded, and after `"a0"` is unlinked and closed (slot torn
down) creating `"a32"` succeeds.  The first half holds, but the second
fails on the code: `free_nsem` never decrements `sem_named_n`, so even
though slot 0 is free again (`in_use = false`, name lookup fails), the
capacity check still sees `sem_named_n = 32` and creating `"a32"` keeps
failing with `ENFILE`. -/
theorem C3_slot_not_reusable_after_teardown :
    (sem_open fullTable "a32" true false 0).2 = .error .ENFILE ∧
    find_by_name_nsem c3_after.sem_named "a0" = none ∧
    c3_after.sem_named[0]?.map NSem.in_use = some false ∧
    c3_after.sem_named_n = 32 ∧
    (sem_open c3_after "a32" true false 0).2 = .error .ENFILE := by decide

/-! ### Claim C5: deadline nanosecond validation -/

/-- Claim C5, counterexample.  The claim says a nanosecond field of exactly
`1_000_000_000` is rejected with `EINVAL`; the code's check is
`tv_nsec < 0 || tv_nsec > 1000000000`, which accepts it and hands the
primitive a relative wait of 1000 ms. -/
theorem C5_nsec_one_billion_accepted :
    sem_timedwait_timeout 0 1000000000 0 = .ok 1000 ∧
    sem_timedwait_timeout 0 1000000000 0 ≠ .error .EINVAL := by decide

/-- Claim C5, amended.  `sem_timedwait` fails with `EINVAL`, without
invoking the primitive, exactly when the nanosecond field is outside the
**closed** interval `[0, 1_000_000_000]`; in particular `2_000_000_000` is
rejected immediately. -/
theorem C5_nsec_validation_closed_interval (sec nsec now : Int) :
    (sem_timedwait_timeout sec nsec now = .error .EINVAL ↔
      nsec < 0 ∨ 1000000000 < nsec) ∧
    sem_timedwait_timeout sec 2000000000 now = .error .EINVAL := by
  constructor
  · unfold sem_timedwait_timeout
    split
    · next h => exact iff_of_true rfl h
    · next h => exact iff_of_false (fun hc => Except.noConfusion hc) h
  · unfold sem_timedwait_timeout
    norm_num

/-! ### Claim C6: absolute-to-relative deadline translation -/

/-- Claim C6, counterexample.  The claim says the relative wait passed to
the primitive equals `sec*1000 + nsec/1_000_000 - now_ms` for **every**
valid deadline, but the code casts the 64-bit difference to `s32_t` before
handing it to `k_sem_take`: a deadline 3_000_000_000 ms in the future
(about 35 days, `tv_sec = 3_000_000`) with the tick counter at 0 is passed
as `-1294967296` ms, not `3000000000`. -/
theorem C6_large_deadline_wraps :
    sem_timedwait_timeout 3000000 0 0 = .ok (-1294967296) ∧
    (3000000 * 1000 + 0 / 1000000 - 0 : Int) = 3000000000 ∧
    sem_timedwait_timeout 3000000 0 0 ≠ .ok 3000000000 := by decide

/-- Claim C6, amended.  For every valid deadline whose millisecond
difference from `now` fits the signed 32-bit range, the relative wait
passed to the primitive equals `sec*1000 + nsec/1_000_000 - now_ms`
(the nanosecond division truncating); in particular, with the tick counter
frozen, a deadline D ms in the future yields exactly D, and a deadline in
the past (within range) yields a non-positive relative wait. -/
theorem C6_relative_wait_reduced_to_s32 :
    (∀ sec nsec now : Int, 0 ≤ nsec → nsec ≤ 1000000000 →
       -2147483648 ≤ sec * 1000 + nsec / 1000000 - now →
       sec * 1000 + nsec / 1000000 - now < 2147483648 →
       sem_timedwait_timeout sec nsec now =
         .ok (sec * 1000 + nsec / 1000000 - now)) ∧
    (∀ sec nsec now : Int, 0 ≤ nsec → nsec ≤ 1000000000 →
       sec * 1000 + nsec / 1000000 ≤ now →
       -2147483648 ≤ sec * 1000 + nsec / 1000000 - now →
       ∃ t, sem_timedwait_timeout sec nsec now = .ok t ∧ t ≤ 0) := by
  have key : ∀ x : Int, -2147483648 ≤ x → x < 2147483648 → toS32 x = x := by
    intro x h1 h2
    unfold toS32 S32_MOD
    rw [Int.emod_eq_of_lt (by omega) (by omega)]
    omega
  have part1 : ∀ sec nsec now : Int, 0 ≤ nsec → nsec ≤ 1000000000 →
      -2147483648 ≤ sec * 1000 + nsec / 1000000 - now →
      sec * 1000 + nsec / 1000000 - now < 2147483648 →
      sem_timedwait_timeout sec nsec now =
        .ok (sec * 1000 + nsec / 1000000 - now) := by
    intro sec nsec now h1 h2 h3 h4
    unfold sem_timedwait_timeout
    rw [if_neg (by omega), key _ h3 h4]
  refine ⟨part1, ?_⟩
  intro sec nsec now h1 h2 h3 h4
  exact ⟨sec * 1000 + nsec / 1000000 - now,
    part1 sec nsec now h1 h2 h4 (by omega), by omega⟩

/-- Claim C6, witness: deadline 5.5 s, tick counter at 4000 ms — the
primitive receives 1500 ms. -/
theorem C6_relative_wait_witness :
    sem_timedwait_timeout 5 500000000 4000 = .ok 1500 := by
  have h := C6_relative_wait_reduced_to_s32.1 5 500000000 4000
    (by decide) (by decide) (by decide) (by decide)
  exact h.trans (by decide)

/-! ### Claim C7: failed transactions do not mutate the registry -/

/-- Claim C7.  Every registry transaction (`sem_open`, `sem_close`,
`sem_unlink`) that fails leaves the whole registry state — slot array and
used-slot counter — exactly as it was: every `goto error` in the source
fires before the first mutation. -/
theorem C7_failed_transactions_leave_state_unchanged :
    (∀ (st : SemState) (name : String) (c e : Bool) (v : Nat) (err : Errno),
       (sem_open st name c e v).2 = .error err → (sem_open st name c e v).1 = st) ∧
    (∀ (st : SemState) (hd : Nat) (err : Errno),
       (sem_close st hd).2 = .error err → (sem_close st hd).1 = st) ∧
    (∀ (st : SemState) (name : String) (err : Errno),
       (sem_unlink st name).2 = .error err → (sem_unlink st name).1 = st) := by
  refine ⟨?_, ?_, ?_⟩
  · intro st name c e v err h
    by_cases hn : st.sem_named_n = SEM_NAMED_N_LIMIT
    · simp [sem_open, hn]
    · rcases hf : find_by_name_nsem st.sem_named name with _ | is
      · by_cases hc : c = true
        · rcases ha : alloc_nsem name st.sem_named with _ | ti
          · simp [sem_open, hn, hf, hc, ha]
          · simp [sem_open, hn, hf, hc, ha] at h
        · simp only [Bool.not_eq_true] at hc
          simp [sem_open, hn, hf, hc]
      · by_cases he : e = true
        · simp [sem_open, hn, hf, he]
        · simp only [Bool.not_eq_true] at he
          simp [sem_open, hn, hf, he] at h
  · intro st hd err h
    rcases hf : find_by_addr_nsem st.sem_named hd with _ | is
    · simp [sem_close, hf]
    · simp [sem_close, hf] at h
  · intro st name err h
    rcases hf : find_by_name_nsem st.sem_named name with _ | is
    · simp [sem_unlink, hf]
    · simp [sem_unlink, hf] at h

/-- Claim C7, witness: closing an unknown handle on the initial state
fails and the state is untouched. -/
theorem C7_failed_close_witness : (sem_close initState 0).1 = initState :=
  C7_failed_transactions_leave_state_unchanged.2.1 initState 0 .EINVAL (by decide)

/-! ### Claim C4: capacity versus attaching to an existing name -/

/-- Claim C4, counterexample.  The claim says a full table never prevents
attaching to an existing live name, but the code checks
`sem_named_n == SEM_NAMED_N_LIMIT` **before** the name lookup: with all 32
slots created, `"a0"` is live yet `sem_open("a0", 0)` fails with
`ENFILE`. -/
theorem C4_full_table_blocks_existing_name :
    (find_by_name_nsem fullTable.sem_named "a0").isSome = true ∧
    (sem_open fullTable "a0" false false 0).2 = .error .ENFILE := by decide

/-- Claim C4, amended.  `sem_open` fails with `ENFILE` exactly when the
used-slot counter is at capacity — regardless of whether the name is a
live slot, since the capacity check precedes the lookup; below capacity,
opening an existing live name without `O_EXCL` succeeds and returns that
slot's handle with the table unchanged. -/
theorem C4_capacity_check_precedes_name_lookup (st : SemState) (name : String)
    (c e : Bool) (v : Nat) :
    ((sem_open st name c e v).2 = .error .ENFILE ↔
      st.sem_named_n = SEM_NAMED_N_LIMIT) ∧
    (st.sem_named_n ≠ SEM_NAMED_N_LIMIT → e = false →
      ∀ (i : Nat) (s : NSem), find_by_name_nsem st.sem_named name = some (i, s) →
        sem_open st name c e v = (st, .ok i)) := by
  constructor
  · constructor
    · intro h
      by_contra hn
      rcases hf : find_by_name_nsem st.sem_named name with _ | is
      · by_cases hc : c = true
        · rcases ha : alloc_nsem name st.sem_named with _ | ti
          · simp [sem_open, hn, hf, hc, ha] at h
          · simp [sem_open, hn, hf, hc, ha] at h
        · simp only [Bool.not_eq_true] at hc
          simp [sem_open, hn, hf, hc] at h
      · by_cases he : e = true
        · simp [sem_open, hn, hf, he] at h
        · simp only [Bool.not_eq_true] at he
          simp [sem_open, hn, hf, he] at h
    · intro hn
      simp [sem_open, hn]
  · intro hn he i s hf
    simp [sem_open, hn, hf, he]

/-- Claim C4, witness: below capacity, attaching to the live name `"s"`
succeeds with the existing handle and no state change. -/
theorem C4_attach_below_capacity_witness :
    sem_open stS "s" false false 0 = (stS, .ok 0) :=
  (C4_capacity_check_precedes_name_lookup stS "s" false false 0).2
    (by decide) rfl 0
    { count := 1, name := "s", refs := 1, to_free := false, in_use := true }
    (by decide)

/-! ### Claim C8: exclusive create on an existing name -/

/-- Claim C8, counterexample.  The claim says exclusive-create on a live
name always fails with `EEXIST`, but when the table is at capacity the
earlier `sem_named_n` check wins: with all 32 slots created, opening the
live name `"a0"` with `O_CREAT|O_EXCL` fails with `ENFILE`, not
`EEXIST`. -/
theorem C8_full_table_gives_enfile_not_eexist :
    (find_by_name_nsem fullTable.sem_named "a0").isSome = true ∧
    (sem_open fullTable "a0" true true 0).2 = .error .ENFILE ∧
    (sem_open fullTable "a0" true true 0).2 ≠ .error .EEXIST := by decide

/-- Claim C8, amended.  Whenever the used-slot counter is below capacity,
`sem_open` of a live name with `O_EXCL` set fails with `EEXIST` and the
state is unchanged, whether or not `O_CREAT` is also set; at capacity the
failure is `ENFILE` instead. -/
theorem C8_excl_open_of_live_name_fails_eexist (st : SemState) (name : String)
    (c : Bool) (v : Nat) (i : Nat) (s : NSem)
    (hn : st.sem_named_n ≠ SEM_NAMED_N_LIMIT)
    (hf : find_by_name_nsem st.sem_named name = some (i, s)) :
    sem_open st name c true v = (st, .error .EEXIST) := by
  simp [sem_open, hn, hf]

/-- Claim C8, witness: exclusive create of the live name `"s"` below
capacity fails with `EEXIST`, with `O_CREAT` set. -/
theorem C8_excl_witness :
    sem_open stS "s" true true 0 = (stS, .error .EEXIST) :=
  C8_excl_open_of_live_name_fails_eexist stS "s" true 0 0
    { count := 1, name := "s", refs := 1, to_free := false, in_use := true }
    (by decide) (by decide)

/-! ### Claim C9: unsigned decrement of a zero reference count -/

/-- Claim C9.  `refs` is a `u32_t` decremented with no zero guard: closing
a live slot whose reference count is already 0 wraps `refs` to
`2^32 - 1`, returns success, and does not tear the slot down (the
decremented value is nonzero, so `free_nsem` is never reached); the slot
stays live. -/
theorem C9_close_with_zero_refs_wraps (st : SemState) (hd i : Nat) (s : NSem)
    (hf : find_by_addr_nsem st.sem_named hd = some (i, s))
    (hr : s.refs = 0) :
    (sem_close st hd).2 = .ok () ∧
    (sem_close st hd).1.sem_named =
      st.sem_named.set i { s with refs := 4294967295 } ∧
    ({ s with refs := 4294967295 } : NSem).in_use = s.in_use ∧
    s.in_use = true := by
  have hpred := (scanFrom_eq_some _ st.sem_named 0 i s hf).1
  have huse : s.in_use = true := by
    have hp2 : (i == hd) = true ∧ s.in_use = true := by simpa using hpred
    exact hp2.2
  have hder : dereference_nsem s.refs = 4294967295 := by
    rw [hr]; decide
  refine ⟨?_, ?_, rfl, huse⟩
  · simp [sem_close, hf]
  · simp [sem_close, hf, hder]

/-- Concrete live slot with `refs = 0`: name `"z"` created and its only
handle closed without an unlink. -/
def c9_state : SemState :=
  { sem_named :=
      { count := 0, name := "z", refs := 0, to_free := false, in_use := true }
        :: List.replicate 31 initSlot,
    sem_named_n := 1 }

/-- Claim C9, witness: closing the zero-reference slot of `c9_state`
succeeds and leaves it live with `refs = 2^32 - 1`. -/
theorem C9_close_wrap_witness :
    (sem_close c9_state 0).2 = .ok () ∧
    (sem_close c9_state 0).1.sem_named = c9_state.sem_named.set 0
      { count := 0, name := "z", refs := 4294967295, to_free := false, in_use := true } ∧
    ({ count := 0, name := "z", refs := 4294967295, to_free := false,
       in_use := true } : NSem).in_use =
      ({ count := 0, name := "z", refs := 0, to_free := false,
         in_use := true } : NSem).in_use ∧
    ({ count := 0, name := "z", refs := 0, to_free := false,
       in_use := true } : NSem).in_use = true :=
  C9_close_with_zero_refs_wraps c9_state 0 0
    { count := 0, name := "z", refs := 0, to_free := false, in_use := true }
    (by decide) rfl

/-! ### Claim C10: torn-down slots are invisible -/

/-- Claim C10.  Once a slot's `in_use` flag is cleared, it is invisible to
both `find_by_addr_nsem` and `find_by_name_nsem`, so `sem_close` on a
stale handle to that slot fails with `EINVAL` and mutates nothing. -/
theorem C10_torn_down_slot_invisible (st : SemState) (i : Nat) (s : NSem)
    (hi : st.sem_named[i]? = some s) (hdead : s.in_use = false) :
    find_by_addr_nsem st.sem_named i = none ∧
    (∀ (name : String) (j : Nat) (t : NSem),
       find_by_name_nsem st.sem_named name = some (j, t) → j ≠ i) ∧
    sem_close st i = (st, .error .EINVAL) := by
  have haddr : find_by_addr_nsem st.sem_named i = none := by
    rcases h : find_by_addr_nsem st.sem_named i with _ | kt
    · rfl
    · obtain ⟨hp, -, hget⟩ := scanFrom_eq_some _ st.sem_named 0 kt.1 kt.2 h
      obtain ⟨hk, huse⟩ : (kt.1 == i) = true ∧ kt.2.in_use = true := by simpa using hp
      have hki : kt.1 = i := by simpa using hk
      rw [hki, Nat.sub_zero, hi] at hget
      have hts : s = kt.2 := by
        injection hget with hg
      rw [hts, huse] at hdead
      cases hdead
  refine ⟨haddr, ?_, ?_⟩
  · intro name j t h hji
    obtain ⟨hp, -, hget⟩ := scanFrom_eq_some _ st.sem_named 0 j t h
    obtain ⟨-, huse⟩ : (t.name == name) = true ∧ t.in_use = true := by simpa using hp
    rw [hji, Nat.sub_zero, hi] at hget
    have hts : s = t := by injection hget with hg
    rw [hts, huse] at hdead
    cases hdead
  · simp [sem_close, haddr]

/-- Concrete torn-down slot: `"z"` was unlinked and freed, its fields
still holding the stale name and `to_free` flag. -/
def c10_state : SemState :=
  { sem_named :=
      { count := 0, name := "z", refs := 0, to_free := true, in_use := false }
        :: List.replicate 31 initSlot,
    sem_named_n := 1 }

/-- Claim C10, witness: closing the stale handle to the torn-down slot of
`c10_state` fails with `EINVAL` and leaves the state unchanged. -/
theorem C10_stale_close_witness :
    sem_close c10_state 0 = (c10_state, .error .EINVAL) :=
  (C10_torn_down_slot_invisible c10_state 0
    { count := 0, name := "z", refs := 0, to_free := true, in_use := false }
    (by decide) rfl).2.2
